import Mathlib

/-!
Verification of the scan-cost pricing engine (`calculate` in `src/app/page.tsx`).

JavaScript numbers are modelled by `JSVal`: an exact rational for every finite
value, plus `nan`, `inf` and `ninf` for the IEEE special values (`-0` is
identified with `0`; rounding of finite values is ignored, i.e. finite
arithmetic is exact).  The arithmetic operations below follow the JS semantics
for the special values (division by zero yields a signed infinity or NaN,
comparisons with NaN are false, and so on).
-/

namespace ScanCost

/-- A JavaScript number: a finite (exact) rational, NaN, or a signed infinity. -/
inductive JSVal where
  | fin (q : ℚ)
  | nan
  | inf
  | ninf
deriving DecidableEq, Repr

/-- `Number.isNaN`. -/
def jsIsNaN : JSVal → Bool
  | .nan => true
  | _ => false

/-- `Number.isFinite`. -/
def jsIsFinite : JSVal → Bool
  | .fin _ => true
  | _ => false

/-- `safeNumber` from the source: NaN and non-finite values become 0,
finite values (negative ones included) pass through unchanged. -/
def safeNumber (value : JSVal) : JSVal :=
  if jsIsNaN value || !(jsIsFinite value) then .fin 0 else value

/-- JS unary minus. -/
def jneg : JSVal → JSVal
  | .fin q => .fin (-q)
  | .nan => .nan
  | .inf => .ninf
  | .ninf => .inf

/-- JS addition. -/
def jadd : JSVal → JSVal → JSVal
  | .nan, _ => .nan
  | _, .nan => .nan
  | .fin a, .fin b => .fin (a + b)
  | .inf, .ninf => .nan
  | .ninf, .inf => .nan
  | .inf, _ => .inf
  | _, .inf => .inf
  | .ninf, _ => .ninf
  | _, .ninf => .ninf

/-- JS subtraction (`a - b = a + (-b)` holds for the special values too). -/
def jsub (a b : JSVal) : JSVal := jadd a (jneg b)

/-- JS multiplication. -/
def jmul : JSVal → JSVal → JSVal
  | .nan, _ => .nan
  | _, .nan => .nan
  | .fin a, .fin b => .fin (a * b)
  | .fin a, .inf => if 0 < a then .inf else if a < 0 then .ninf else .nan
  | .inf, .fin b => if 0 < b then .inf else if b < 0 then .ninf else .nan
  | .fin a, .ninf => if 0 < a then .ninf else if a < 0 then .inf else .nan
  | .ninf, .fin b => if 0 < b then .ninf else if b < 0 then .inf else .nan
  | .inf, .inf => .inf
  | .ninf, .ninf => .inf
  | .inf, .ninf => .ninf
  | .ninf, .inf => .ninf

/-- JS division (with `-0` identified with `0`, a finite value divided by
zero follows the sign of the dividend). -/
def jdiv : JSVal → JSVal → JSVal
  | .nan, _ => .nan
  | _, .nan => .nan
  | .fin a, .fin b =>
      if b = 0 then (if 0 < a then .inf else if a < 0 then .ninf else .nan)
      else .fin (a / b)
  | .fin _, .inf => .fin 0
  | .fin _, .ninf => .fin 0
  | .inf, .fin b => if b < 0 then .ninf else .inf
  | .ninf, .fin b => if b < 0 then .inf else .ninf
  | .inf, .inf => .nan
  | .inf, .ninf => .nan
  | .ninf, .inf => .nan
  | .ninf, .ninf => .nan

/-- `Math.ceil` (NaN and the infinities are fixed points). -/
def jceil : JSVal → JSVal
  | .fin q => .fin ⌈q⌉
  | x => x

/-- `Math.max(1, x)` (NaN-propagating, as `Math.max` is). -/
def jmax1 : JSVal → JSVal
  | .nan => .nan
  | .inf => .inf
  | .ninf => .fin 1
  | .fin q => .fin (max 1 q)

/-- JS strict greater-than (false whenever an operand is NaN). -/
def jgt : JSVal → JSVal → Bool
  | .nan, _ => false
  | _, .nan => false
  | .fin a, .fin b => b < a
  | .inf, .inf => false
  | .inf, _ => true
  | _, .inf => false
  | .ninf, _ => false
  | _, .ninf => true

/-- JS less-than-or-equal (false whenever an operand is NaN). -/
def jle : JSVal → JSVal → Bool
  | .nan, _ => false
  | _, .nan => false
  | .fin a, .fin b => decide (a ≤ b)
  | .ninf, _ => true
  | _, .ninf => false
  | _, .inf => true
  | .inf, _ => false

/-- `type Mode = "noDeadline" | "withDeadline"`. -/
inductive Mode where
  | noDeadline
  | withDeadline
deriving DecidableEq, Repr

/-- `type LaborMode = "perPage" | "salary"`. -/
inductive LaborMode where
  | perPage
  | salary
deriving DecidableEq, Repr

/-- The `InputState` record of the source; every field is a raw JS number. -/
structure InputState where
  pages : JSVal
  laborPerPage : JSVal
  monthlySalaryPerWorker : JSVal
  scannerMonthly : JSVal
  pcMonthly : JSVal
  workingDaysPerMonth : JSVal
  officePerJob : JSVal
  riskRate : JSVal
  gpRate : JSVal
  capacityPerPersonPerDay : JSVal
  workersManual : JSVal
  deadlineDays : JSVal
  trialPricePerPage : JSVal
deriving DecidableEq, Repr

/-- The `CalcResult` record of the source. -/
structure CalcResult where
  valid : Bool
  modeUsed : Mode
  workers : JSVal
  daysNeeded : JSVal
  monthsNeeded : JSVal
  monthlyRentalPerWorker : JSVal
  rentalTotal : JSVal
  laborCost : JSVal
  officeCost : JSVal
  baseCost : JSVal
  requiredRevenue : Option JSVal
  requiredPricePerPage : Option JSVal
  riskAmount : Option JSVal
  targetGPAmount : Option JSVal
  profitAfterRisk : Option JSVal
  trialRevenue : Option JSVal
  trialRiskAmount : Option JSVal
  trialProfit : Option JSVal
  trialGPPercent : Option JSVal
  errors : List String
deriving DecidableEq, Repr

/-- Validation message for `pages <= 0`. -/
def pagesMsg : String := "กรุณากรอกจำนวนหน้าให้มากกว่า 0"

/-- Validation message for `capacity <= 0`. -/
def capacityMsg : String := "กรุณากรอกความสามารถสแกนต่อคน/วันให้มากกว่า 0"

/-- Validation message for `workingDaysPerMonth <= 0`. -/
def workingDaysMsg : String := "กรุณากรอกจำนวนวันทำงานต่อเดือนให้มากกว่า 0"

/-- Validation message for `1 - riskRate - gpRate <= 0`. -/
def rateSumMsg : String := "ค่าความเสี่ยง + GP ต้องรวมน้อยกว่า 100%"

/-- `1 - riskRate - gpRate` over the sanitized inputs. -/
def denomOf (input : InputState) : JSVal :=
  jsub (jsub (.fin 1) (safeNumber input.riskRate)) (safeNumber input.gpRate)

/-- The list of validation error messages accumulated by `calculate`
(lines 80-87 of the source), in push order. -/
def errorsOf (input : InputState) : List String :=
  (if jle (safeNumber input.pages) (.fin 0) = true then [pagesMsg] else []) ++
  (if jle (safeNumber input.capacityPerPersonPerDay) (.fin 0) = true then [capacityMsg] else []) ++
  (if jle (safeNumber input.workingDaysPerMonth) (.fin 0) = true then [workingDaysMsg] else []) ++
  (if jle (denomOf input) (.fin 0) = true then [rateSumMsg] else [])

/-- Step 1 of `calculate`: the headcount (lines 89-96 of the source).
`workersManual` is `Math.max(1, safeNumber(input.workersManual))` (line 76). -/
def workersOf (input : InputState) (mode : Mode) : JSVal :=
  if mode = Mode.withDeadline ∧ jgt (safeNumber input.deadlineDays) (.fin 0) = true then
    jmax1 (jceil (jdiv (safeNumber input.pages)
      (jmul (safeNumber input.capacityPerPersonPerDay) (safeNumber input.deadlineDays))))
  else
    jmax1 (safeNumber input.workersManual)

/-- Step 2 of `calculate`: realized working days (lines 98-102 of the source). -/
def daysNeededOf (input : InputState) (mode : Mode) : JSVal :=
  if jgt (safeNumber input.capacityPerPersonPerDay) (.fin 0) = true ∧
      jgt (workersOf input mode) (.fin 0) = true then
    jdiv (safeNumber input.pages)
      (jmul (safeNumber input.capacityPerPersonPerDay) (workersOf input mode))
  else .fin 0

/-- Step 3 of `calculate`: months of rental (lines 104-108 of the source). -/
def monthsNeededOf (input : InputState) (mode : Mode) : JSVal :=
  if jgt (safeNumber input.workingDaysPerMonth) (.fin 0) = true ∧
      jgt (daysNeededOf input mode) (.fin 0) = true then
    jceil (jdiv (daysNeededOf input mode) (safeNumber input.workingDaysPerMonth))
  else .fin 0

/-- Step 4 of `calculate`: rental per worker per month (line 111 of the source). -/
def monthlyRentalPerWorkerOf (input : InputState) : JSVal :=
  jadd (safeNumber input.scannerMonthly) (safeNumber input.pcMonthly)

/-- Step 4 of `calculate`: total rental (line 112 of the source). -/
def rentalTotalOf (input : InputState) (mode : Mode) : JSVal :=
  jmul (jmul (monthlyRentalPerWorkerOf input) (workersOf input mode)) (monthsNeededOf input mode)

/-- Step 5 of `calculate`: labor cost (lines 115-120 of the source). -/
def laborCostOf (input : InputState) (mode : Mode) (laborMode : LaborMode) : JSVal :=
  if laborMode = LaborMode.perPage then
    jmul (safeNumber input.pages) (safeNumber input.laborPerPage)
  else
    jmul (jmul (safeNumber input.monthlySalaryPerWorker) (workersOf input mode))
      (monthsNeededOf input mode)

/-- Step 6 of `calculate`: the cost basis (line 124 of the source). -/
def baseCostOf (input : InputState) (mode : Mode) (laborMode : LaborMode) : JSVal :=
  jadd (jadd (rentalTotalOf input mode) (laborCostOf input mode laborMode))
    (safeNumber input.officePerJob)

/-- The guard of step 7 of `calculate` (line 133 of the source). -/
def reqGate (input : InputState) (mode : Mode) (laborMode : LaborMode) : Prop :=
  jgt (baseCostOf input mode laborMode) (.fin 0) = true ∧
  jgt (denomOf input) (.fin 0) = true ∧
  (errorsOf input).length = 0

instance (input : InputState) (mode : Mode) (laborMode : LaborMode) :
    Decidable (reqGate input mode laborMode) := by
  unfold reqGate; infer_instance

/-- Step 7 of `calculate`: the required revenue (line 134 of the source). -/
def requiredRevenueOf (input : InputState) (mode : Mode) (laborMode : LaborMode) : JSVal :=
  jdiv (baseCostOf input mode laborMode) (denomOf input)

/-- The guard of step 8 of `calculate` (line 149 of the source). -/
def trialGate (input : InputState) (mode : Mode) (laborMode : LaborMode) : Prop :=
  jgt (safeNumber input.trialPricePerPage) (.fin 0) = true ∧
  jgt (safeNumber input.pages) (.fin 0) = true ∧
  jgt (baseCostOf input mode laborMode) (.fin 0) = true

instance (input : InputState) (mode : Mode) (laborMode : LaborMode) :
    Decidable (trialGate input mode laborMode) := by
  unfold trialGate; infer_instance

/-- Step 8 of `calculate`: trial revenue (line 150 of the source). -/
def trialRevenueOf (input : InputState) : JSVal :=
  jmul (safeNumber input.trialPricePerPage) (safeNumber input.pages)

/-- Step 8 of `calculate`: trial risk reserve (line 151 of the source). -/
def trialRiskAmountOf (input : InputState) : JSVal :=
  jmul (trialRevenueOf input) (safeNumber input.riskRate)

/-- Step 8 of `calculate`: trial profit (line 152 of the source). -/
def trialProfitOf (input : InputState) (mode : Mode) (laborMode : LaborMode) : JSVal :=
  jsub (jsub (trialRevenueOf input) (baseCostOf input mode laborMode)) (trialRiskAmountOf input)

/-- The pricing engine `calculate` (lines 59-180 of the source), assembled
from the step functions above. -/
def calculate (input : InputState) (mode : Mode) (laborMode : LaborMode) : CalcResult :=
  { valid := (errorsOf input).length = 0
    modeUsed := mode
    workers := workersOf input mode
    daysNeeded := daysNeededOf input mode
    monthsNeeded := monthsNeededOf input mode
    monthlyRentalPerWorker := monthlyRentalPerWorkerOf input
    rentalTotal := rentalTotalOf input mode
    laborCost := laborCostOf input mode laborMode
    officeCost := safeNumber input.officePerJob
    baseCost := baseCostOf input mode laborMode
    requiredRevenue :=
      if reqGate input mode laborMode then some (requiredRevenueOf input mode laborMode) else none
    requiredPricePerPage :=
      if reqGate input mode laborMode ∧ jgt (safeNumber input.pages) (.fin 0) = true then
        some (jdiv (requiredRevenueOf input mode laborMode) (safeNumber input.pages))
      else none
    riskAmount :=
      if reqGate input mode laborMode then
        some (jmul (requiredRevenueOf input mode laborMode) (safeNumber input.riskRate))
      else none
    targetGPAmount :=
      if reqGate input mode laborMode then
        some (jmul (requiredRevenueOf input mode laborMode) (safeNumber input.gpRate))
      else none
    profitAfterRisk :=
      if reqGate input mode laborMode then
        some (jsub (jsub (requiredRevenueOf input mode laborMode) (baseCostOf input mode laborMode))
          (jmul (requiredRevenueOf input mode laborMode) (safeNumber input.riskRate)))
      else none
    trialRevenue :=
      if trialGate input mode laborMode then some (trialRevenueOf input) else none
    trialRiskAmount :=
      if trialGate input mode laborMode then some (trialRiskAmountOf input) else none
    trialProfit :=
      if trialGate input mode laborMode then some (trialProfitOf input mode laborMode) else none
    trialGPPercent :=
      if trialGate input mode laborMode ∧ trialRevenueOf input ≠ .fin 0 then
        some (jdiv (trialProfitOf input mode laborMode) (trialRevenueOf input))
      else none
    errors := errorsOf input }

/-! ### Basic lemmas about the JS-number operations -/

@[simp]
theorem safeNumber_fin (q : ℚ) : safeNumber (.fin q) = .fin q := rfl

@[simp]
theorem safeNumber_nan : safeNumber .nan = .fin 0 := rfl

@[simp]
theorem safeNumber_inf : safeNumber .inf = .fin 0 := rfl

@[simp]
theorem safeNumber_ninf : safeNumber .ninf = .fin 0 := rfl

theorem safeNumber_isFin (x : JSVal) : ∃ q : ℚ, safeNumber x = .fin q := by
  cases x <;> exact ⟨_, rfl⟩

@[simp]
theorem jadd_fin (a b : ℚ) : jadd (.fin a) (.fin b) = .fin (a + b) := rfl

@[simp]
theorem jsub_fin (a b : ℚ) : jsub (.fin a) (.fin b) = .fin (a - b) := by
  show JSVal.fin (a + -b) = JSVal.fin (a - b)
  rw [sub_eq_add_neg]

@[simp]
theorem jmul_fin (a b : ℚ) : jmul (.fin a) (.fin b) = .fin (a * b) := rfl

theorem jdiv_fin {b : ℚ} (a : ℚ) (hb : b ≠ 0) : jdiv (.fin a) (.fin b) = .fin (a / b) := by
  simp [jdiv, hb]

@[simp]
theorem jceil_fin (q : ℚ) : jceil (.fin q) = .fin ⌈q⌉ := rfl

@[simp]
theorem jmax1_fin (q : ℚ) : jmax1 (.fin q) = .fin (max 1 q) := rfl

@[simp]
theorem jgt_fin (a b : ℚ) : jgt (.fin a) (.fin b) = true ↔ b < a := by
  simp [jgt]

@[simp]
theorem jle_fin (a b : ℚ) : jle (.fin a) (.fin b) = true ↔ a ≤ b := by
  simp [jle]

theorem jle_fin_false (a b : ℚ) : jle (.fin a) (.fin b) = false ↔ b < a := by
  simp [jle]

/-! ### Structure of the validation pass -/

theorem errorsOf_eq_nil (input : InputState) :
    errorsOf input = [] ↔
      jgt (safeNumber input.pages) (.fin 0) = true ∧
      jgt (safeNumber input.capacityPerPersonPerDay) (.fin 0) = true ∧
      jgt (safeNumber input.workingDaysPerMonth) (.fin 0) = true ∧
      jgt (denomOf input) (.fin 0) = true := by
  obtain ⟨p, hp⟩ := safeNumber_isFin input.pages
  obtain ⟨c, hc⟩ := safeNumber_isFin input.capacityPerPersonPerDay
  obtain ⟨w, hw⟩ := safeNumber_isFin input.workingDaysPerMonth
  obtain ⟨r, hr⟩ := safeNumber_isFin input.riskRate
  obtain ⟨g, hg⟩ := safeNumber_isFin input.gpRate
  have hd : denomOf input = .fin (1 - r - g) := by
    simp [denomOf, hr, hg]
  unfold errorsOf
  rw [hp, hc, hw, hd]
  constructor
  · intro h
    rw [List.append_eq_nil, List.append_eq_nil, List.append_eq_nil] at h
    obtain ⟨⟨⟨h1, h2⟩, h3⟩, h4⟩ := h
    refine ⟨?_, ?_, ?_, ?_⟩ <;> rw [jgt_fin] <;> by_contra hx <;> push_neg at hx
    · rw [if_pos (by rw [jle_fin]; linarith)] at h1; exact absurd h1 (by simp)
    · rw [if_pos (by rw [jle_fin]; linarith)] at h2; exact absurd h2 (by simp)
    · rw [if_pos (by rw [jle_fin]; linarith)] at h3; exact absurd h3 (by simp)
    · rw [if_pos (by rw [jle_fin]; linarith)] at h4; exact absurd h4 (by simp)
  · rintro ⟨h1, h2, h3, h4⟩
    rw [jgt_fin] at h1 h2 h3 h4
    rw [if_neg (by rw [jle_fin]; push_neg; linarith),
      if_neg (by rw [jle_fin]; push_neg; linarith),
      if_neg (by rw [jle_fin]; push_neg; linarith),
      if_neg (by rw [jle_fin]; push_neg; linarith)]
    rfl

theorem errorsOf_nil_of_length (input : InputState) (h : (errorsOf input).length = 0) :
    errorsOf input = [] := List.length_eq_zero.mp h

/-! ### Finiteness of the derived quantities

Once the capacity is a positive finite number, the chosen headcount is a
finite rational that is at least 1, and every downstream cost quantity is
finite as well. -/

theorem workersOf_isFin (input : InputState) (mode : Mode)
    (hcap : jgt (safeNumber input.capacityPerPersonPerDay) (.fin 0) = true) :
    ∃ w : ℚ, workersOf input mode = .fin w ∧ 1 ≤ w := by
  obtain ⟨c, hc⟩ := safeNumber_isFin input.capacityPerPersonPerDay
  obtain ⟨p, hp⟩ := safeNumber_isFin input.pages
  obtain ⟨wm, hwm⟩ := safeNumber_isFin input.workersManual
  obtain ⟨d, hd⟩ := safeNumber_isFin input.deadlineDays
  rw [hc, jgt_fin] at hcap
  unfold workersOf
  rw [hp, hc, hd, hwm]
  split
  case isTrue h =>
    obtain ⟨-, hd0⟩ := h
    rw [jgt_fin] at hd0
    have hne : c * d ≠ 0 := (mul_pos hcap hd0).ne'
    rw [jmul_fin, jdiv_fin p hne, jceil_fin, jmax1_fin]
    exact ⟨_, rfl, le_max_left _ _⟩
  case isFalse h =>
    rw [jmax1_fin]
    exact ⟨_, rfl, le_max_left _ _⟩

theorem daysNeededOf_isFin (input : InputState) (mode : Mode) :
    ∃ q : ℚ, daysNeededOf input mode = .fin q := by
  unfold daysNeededOf
  split
  case isTrue h =>
    obtain ⟨hcap, hw⟩ := h
    obtain ⟨w, hwf, hw1⟩ := workersOf_isFin input mode hcap
    obtain ⟨c, hc⟩ := safeNumber_isFin input.capacityPerPersonPerDay
    obtain ⟨p, hp⟩ := safeNumber_isFin input.pages
    rw [hc, jgt_fin] at hcap
    have hne : c * w ≠ 0 := (mul_pos hcap (lt_of_lt_of_le one_pos hw1)).ne'
    rw [hp, hc, hwf, jmul_fin, jdiv_fin p hne]
    exact ⟨_, rfl⟩
  case isFalse h => exact ⟨0, rfl⟩

theorem monthsNeededOf_isFin (input : InputState) (mode : Mode) :
    ∃ q : ℚ, monthsNeededOf input mode = .fin q := by
  unfold monthsNeededOf
  split
  case isTrue h =>
    obtain ⟨hwd, hdays⟩ := h
    obtain ⟨u, hu⟩ := safeNumber_isFin input.workingDaysPerMonth
    obtain ⟨dq, hdq⟩ := daysNeededOf_isFin input mode
    rw [hu, jgt_fin] at hwd
    rw [hdq, hu, jdiv_fin dq hwd.ne', jceil_fin]
    exact ⟨_, rfl⟩
  case isFalse h => exact ⟨0, rfl⟩

theorem baseCostOf_isFin (input : InputState) (mode : Mode) (laborMode : LaborMode)
    (hcap : jgt (safeNumber input.capacityPerPersonPerDay) (.fin 0) = true) :
    ∃ b : ℚ, baseCostOf input mode laborMode = .fin b := by
  obtain ⟨w, hwf, -⟩ := workersOf_isFin input mode hcap
  obtain ⟨m, hm⟩ := monthsNeededOf_isFin input mode
  obtain ⟨s, hs⟩ := safeNumber_isFin input.scannerMonthly
  obtain ⟨pc, hpc⟩ := safeNumber_isFin input.pcMonthly
  obtain ⟨p, hp⟩ := safeNumber_isFin input.pages
  obtain ⟨lp, hlp⟩ := safeNumber_isFin input.laborPerPage
  obtain ⟨sal, hsal⟩ := safeNumber_isFin input.monthlySalaryPerWorker
  obtain ⟨o, ho⟩ := safeNumber_isFin input.officePerJob
  have hrent : ∃ r : ℚ, rentalTotalOf input mode = .fin r := by
    unfold rentalTotalOf monthlyRentalPerWorkerOf
    rw [hs, hpc, jadd_fin, hwf, jmul_fin, hm, jmul_fin]
    exact ⟨_, rfl⟩
  have hlab : ∃ l : ℚ, laborCostOf input mode laborMode = .fin l := by
    unfold laborCostOf
    split
    · rw [hp, hlp, jmul_fin]; exact ⟨_, rfl⟩
    · rw [hsal, hwf, jmul_fin, hm, jmul_fin]; exact ⟨_, rfl⟩
  obtain ⟨r, hr⟩ := hrent
  obtain ⟨l, hl⟩ := hlab
  unfold baseCostOf
  rw [hr, hl, jadd_fin, ho, jadd_fin]
  exact ⟨_, rfl⟩

/-! ### Claim theorems -/

/-- C4: for every input, staffing mode and labor mode, the returned Result
satisfies `baseCost = rentalTotal + laborCost + officeCost` exactly, whether
or not any validation errors are present. -/
theorem baseCost_decomposition (input : InputState) (mode : Mode) (laborMode : LaborMode) :
    (calculate input mode laborMode).baseCost =
      jadd (jadd (calculate input mode laborMode).rentalTotal
        (calculate input mode laborMode).laborCost)
        (calculate input mode laborMode).officeCost := rfl

/-- C3: in DeadlineDriven mode with `deadlineDays > 0` the headcount is
`max(1, ceil(pages / (capacity * deadlineDays)))`; otherwise it is
`max(1, workersManual)`; and the validation errors never depend on the
staffing mode, so the fallback raises no error. -/
theorem workers_staffing_rule (input : InputState) (mode : Mode) (laborMode : LaborMode) :
    ((mode = Mode.withDeadline ∧ jgt (safeNumber input.deadlineDays) (.fin 0) = true) →
      (calculate input mode laborMode).workers =
        jmax1 (jceil (jdiv (safeNumber input.pages)
          (jmul (safeNumber input.capacityPerPersonPerDay) (safeNumber input.deadlineDays))))) ∧
    (¬(mode = Mode.withDeadline ∧ jgt (safeNumber input.deadlineDays) (.fin 0) = true) →
      (calculate input mode laborMode).workers = jmax1 (safeNumber input.workersManual)) ∧
    (calculate input mode laborMode).errors = (calculate input Mode.noDeadline laborMode).errors := by
  refine ⟨?_, ?_, rfl⟩
  · intro h
    show workersOf input mode = _
    unfold workersOf
    rw [if_pos h]
  · intro h
    show workersOf input mode = _
    unfold workersOf
    rw [if_neg h]

/-- C6: `daysNeeded = pages / (capacity * workers)` when capacity and the
chosen workers value are positive, else 0; and
`monthsNeeded = ceil(daysNeeded / workingDaysPerMonth)` when
`workingDaysPerMonth` and `daysNeeded` are positive, else 0. -/
theorem duration_derivation (input : InputState) (mode : Mode) (laborMode : LaborMode) :
    ((jgt (safeNumber input.capacityPerPersonPerDay) (.fin 0) = true ∧
        jgt (calculate input mode laborMode).workers (.fin 0) = true) →
      (calculate input mode laborMode).daysNeeded =
        jdiv (safeNumber input.pages)
          (jmul (safeNumber input.capacityPerPersonPerDay)
            (calculate input mode laborMode).workers)) ∧
    (¬(jgt (safeNumber input.capacityPerPersonPerDay) (.fin 0) = true ∧
        jgt (calculate input mode laborMode).workers (.fin 0) = true) →
      (calculate input mode laborMode).daysNeeded = .fin 0) ∧
    ((jgt (safeNumber input.workingDaysPerMonth) (.fin 0) = true ∧
        jgt (calculate input mode laborMode).daysNeeded (.fin 0) = true) →
      (calculate input mode laborMode).monthsNeeded =
        jceil (jdiv (calculate input mode laborMode).daysNeeded
          (safeNumber input.workingDaysPerMonth))) ∧
    (¬(jgt (safeNumber input.workingDaysPerMonth) (.fin 0) = true ∧
        jgt (calculate input mode laborMode).daysNeeded (.fin 0) = true) →
      (calculate input mode laborMode).monthsNeeded = .fin 0) := by
  have hw : (calculate input mode laborMode).workers = workersOf input mode := rfl
  have hd : (calculate input mode laborMode).daysNeeded = daysNeededOf input mode := rfl
  refine ⟨?_, ?_, ?_, ?_⟩
  · intro h
    rw [hw] at h
    show daysNeededOf input mode = jdiv (safeNumber input.pages)
      (jmul (safeNumber input.capacityPerPersonPerDay) (workersOf input mode))
    unfold daysNeededOf
    rw [if_pos h]
  · intro h
    rw [hw] at h
    show daysNeededOf input mode = _
    unfold daysNeededOf
    rw [if_neg h]
  · intro h
    rw [hd] at h
    show monthsNeededOf input mode =
      jceil (jdiv (daysNeededOf input mode) (safeNumber input.workingDaysPerMonth))
    unfold monthsNeededOf
    rw [if_pos h]
  · intro h
    rw [hd] at h
    show monthsNeededOf input mode = _
    unfold monthsNeededOf
    rw [if_neg h]

/-- C9: two inputs that differ only in `gpRate` (same staffing and labor
modes) produce identical trial fields: the trial branch never consults
`gpRate`. -/
theorem trial_ignores_gpRate (input : InputState) (g1 g2 : JSVal)
    (mode : Mode) (laborMode : LaborMode) :
    (calculate { input with gpRate := g1 } mode laborMode).trialRevenue =
      (calculate { input with gpRate := g2 } mode laborMode).trialRevenue ∧
    (calculate { input with gpRate := g1 } mode laborMode).trialRiskAmount =
      (calculate { input with gpRate := g2 } mode laborMode).trialRiskAmount ∧
    (calculate { input with gpRate := g1 } mode laborMode).trialProfit =
      (calculate { input with gpRate := g2 } mode laborMode).trialProfit ∧
    (calculate { input with gpRate := g1 } mode laborMode).trialGPPercent =
      (calculate { input with gpRate := g2 } mode laborMode).trialGPPercent :=
  ⟨rfl, rfl, rfl, rfl⟩

/-- C1: whenever the required-revenue branch is populated, its fields satisfy
(over the sanitized inputs): `requiredRevenue = baseCost / (1 - riskRate - gpRate)`,
`riskAmount = requiredRevenue * riskRate`, `targetGPAmount = requiredRevenue * gpRate`,
`profitAfterRisk = requiredRevenue - baseCost - riskAmount`, and
`requiredPricePerPage = requiredRevenue / pages`. -/
theorem required_branch_formulas (input : InputState) (mode : Mode) (laborMode : LaborMode)
    (rr : JSVal) (h : (calculate input mode laborMode).requiredRevenue = some rr) :
    rr = jdiv (calculate input mode laborMode).baseCost
        (jsub (jsub (.fin 1) (safeNumber input.riskRate)) (safeNumber input.gpRate)) ∧
    (calculate input mode laborMode).riskAmount = some (jmul rr (safeNumber input.riskRate)) ∧
    (calculate input mode laborMode).targetGPAmount = some (jmul rr (safeNumber input.gpRate)) ∧
    (calculate input mode laborMode).profitAfterRisk =
      some (jsub (jsub rr (calculate input mode laborMode).baseCost)
        (jmul rr (safeNumber input.riskRate))) ∧
    (calculate input mode laborMode).requiredPricePerPage =
      some (jdiv rr (safeNumber input.pages)) := by
  have hgate : reqGate input mode laborMode := by
    by_contra hg
    rw [show (calculate input mode laborMode).requiredRevenue =
        (if reqGate input mode laborMode then some (requiredRevenueOf input mode laborMode)
          else none) from rfl, if_neg hg] at h
    exact Option.noConfusion h
  have hrr : rr = requiredRevenueOf input mode laborMode := by
    rw [show (calculate input mode laborMode).requiredRevenue =
        (if reqGate input mode laborMode then some (requiredRevenueOf input mode laborMode)
          else none) from rfl, if_pos hgate] at h
    exact (Option.some.inj h).symm
  have hpages : jgt (safeNumber input.pages) (.fin 0) = true :=
    ((errorsOf_eq_nil input).mp (errorsOf_nil_of_length input hgate.2.2)).1
  subst hrr
  refine ⟨rfl, ?_, ?_, ?_, ?_⟩
  · show (if reqGate input mode laborMode then
        some (jmul (requiredRevenueOf input mode laborMode) (safeNumber input.riskRate))
      else none) = _
    rw [if_pos hgate]
  · show (if reqGate input mode laborMode then
        some (jmul (requiredRevenueOf input mode laborMode) (safeNumber input.gpRate))
      else none) = _
    rw [if_pos hgate]
  · show (if reqGate input mode laborMode then
        some (jsub (jsub (requiredRevenueOf input mode laborMode)
          (baseCostOf input mode laborMode))
          (jmul (requiredRevenueOf input mode laborMode) (safeNumber input.riskRate)))
      else none) = _
    rw [if_pos hgate]
    rfl
  · show (if reqGate input mode laborMode ∧ jgt (safeNumber input.pages) (.fin 0) = true then
        some (jdiv (requiredRevenueOf input mode laborMode) (safeNumber input.pages))
      else none) = _
    rw [if_pos ⟨hgate, hpages⟩]

/-- C2: the five required-revenue fields are all non-null iff
`baseCost > 0` and `1 - riskRate - gpRate > 0` and the errors list is empty;
when the condition fails all five are null, while `workers`, `daysNeeded`,
`monthsNeeded` and `baseCost` are still the computed (non-null) numbers. -/
theorem required_branch_gate (input : InputState) (mode : Mode) (laborMode : LaborMode) :
    (((calculate input mode laborMode).requiredRevenue.isSome = true ∧
      (calculate input mode laborMode).requiredPricePerPage.isSome = true ∧
      (calculate input mode laborMode).riskAmount.isSome = true ∧
      (calculate input mode laborMode).targetGPAmount.isSome = true ∧
      (calculate input mode laborMode).profitAfterRisk.isSome = true) ↔
      (jgt (calculate input mode laborMode).baseCost (.fin 0) = true ∧
        jgt (denomOf input) (.fin 0) = true ∧
        (calculate input mode laborMode).errors = [])) ∧
    (¬(jgt (calculate input mode laborMode).baseCost (.fin 0) = true ∧
        jgt (denomOf input) (.fin 0) = true ∧
        (calculate input mode laborMode).errors = []) →
      (calculate input mode laborMode).requiredRevenue = none ∧
      (calculate input mode laborMode).requiredPricePerPage = none ∧
      (calculate input mode laborMode).riskAmount = none ∧
      (calculate input mode laborMode).targetGPAmount = none ∧
      (calculate input mode laborMode).profitAfterRisk = none) ∧
    (calculate input mode laborMode).workers = workersOf input mode ∧
    (calculate input mode laborMode).daysNeeded = daysNeededOf input mode ∧
    (calculate input mode laborMode).monthsNeeded = monthsNeededOf input mode ∧
    (calculate input mode laborMode).baseCost = baseCostOf input mode laborMode := by
  have hcond : reqGate input mode laborMode ↔
      (jgt (calculate input mode laborMode).baseCost (.fin 0) = true ∧
        jgt (denomOf input) (.fin 0) = true ∧
        (calculate input mode laborMode).errors = []) := by
    show reqGate input mode laborMode ↔
      (jgt (baseCostOf input mode laborMode) (.fin 0) = true ∧
        jgt (denomOf input) (.fin 0) = true ∧ errorsOf input = [])
    unfold reqGate
    exact and_congr_right fun _ => and_congr_right fun _ => List.length_eq_zero
  refine ⟨?_, ?_, rfl, rfl, rfl, rfl⟩
  · by_cases hg : reqGate input mode laborMode
    · have hpages : jgt (safeNumber input.pages) (.fin 0) = true :=
        ((errorsOf_eq_nil input).mp (errorsOf_nil_of_length input hg.2.2)).1
      apply iff_of_true
      · refine ⟨?_, ?_, ?_, ?_, ?_⟩
        · show (if reqGate input mode laborMode then
              some (requiredRevenueOf input mode laborMode) else none).isSome = true
          rw [if_pos hg]; rfl
        · show (if reqGate input mode laborMode ∧ jgt (safeNumber input.pages) (.fin 0) = true
              then some (jdiv (requiredRevenueOf input mode laborMode)
                (safeNumber input.pages)) else none).isSome = true
          rw [if_pos ⟨hg, hpages⟩]; rfl
        · show (if reqGate input mode laborMode then
              some (jmul (requiredRevenueOf input mode laborMode)
                (safeNumber input.riskRate)) else none).isSome = true
          rw [if_pos hg]; rfl
        · show (if reqGate input mode laborMode then
              some (jmul (requiredRevenueOf input mode laborMode)
                (safeNumber input.gpRate)) else none).isSome = true
          rw [if_pos hg]; rfl
        · show (if reqGate input mode laborMode then
              some (jsub (jsub (requiredRevenueOf input mode laborMode)
                (baseCostOf input mode laborMode))
                (jmul (requiredRevenueOf input mode laborMode)
                  (safeNumber input.riskRate))) else none).isSome = true
          rw [if_pos hg]; rfl
      · exact hcond.mp hg
    · apply iff_of_false
      · rintro ⟨h1, -⟩
        rw [show (calculate input mode laborMode).requiredRevenue =
            (if reqGate input mode laborMode then
              some (requiredRevenueOf input mode laborMode) else none) from rfl,
          if_neg hg] at h1
        exact Bool.noConfusion h1
      · exact fun hc => hg (hcond.mpr hc)
  · intro hc
    have hg : ¬ reqGate input mode laborMode := fun hgg => hc (hcond.mp hgg)
    refine ⟨?_, ?_, ?_, ?_, ?_⟩
    · show (if reqGate input mode laborMode then
          some (requiredRevenueOf input mode laborMode) else none) = none
      rw [if_neg hg]
    · show (if reqGate input mode laborMode ∧ jgt (safeNumber input.pages) (.fin 0) = true
          then some (jdiv (requiredRevenueOf input mode laborMode)
            (safeNumber input.pages)) else none) = none
      rw [if_neg fun hx => hg hx.1]
    · show (if reqGate input mode laborMode then
          some (jmul (requiredRevenueOf input mode laborMode)
            (safeNumber input.riskRate)) else none) = none
      rw [if_neg hg]
    · show (if reqGate input mode laborMode then
          some (jmul (requiredRevenueOf input mode laborMode)
            (safeNumber input.gpRate)) else none) = none
      rw [if_neg hg]
    · show (if reqGate input mode laborMode then
          some (jsub (jsub (requiredRevenueOf input mode laborMode)
            (baseCostOf input mode laborMode))
            (jmul (requiredRevenueOf input mode laborMode)
              (safeNumber input.riskRate))) else none) = none
      rw [if_neg hg]

theorem trialRevenueOf_ne_zero (input : InputState)
    (htp : jgt (safeNumber input.trialPricePerPage) (.fin 0) = true)
    (hpg : jgt (safeNumber input.pages) (.fin 0) = true) :
    trialRevenueOf input ≠ .fin 0 := by
  obtain ⟨a, ha⟩ := safeNumber_isFin input.trialPricePerPage
  obtain ⟨b, hb⟩ := safeNumber_isFin input.pages
  rw [ha, jgt_fin] at htp
  rw [hb, jgt_fin] at hpg
  unfold trialRevenueOf
  rw [ha, hb, jmul_fin]
  intro hx
  exact (mul_pos htp hpg).ne' (JSVal.fin.inj hx)

/-- C5: the four trial fields are all non-null iff `trialPricePerPage > 0`
and `pages > 0` and `baseCost > 0`, independent of validation errors and of
the required-revenue branch; the four are null together or non-null
together. -/
theorem trial_branch_gate (input : InputState) (mode : Mode) (laborMode : LaborMode) :
    (((calculate input mode laborMode).trialRevenue.isSome = true ∧
      (calculate input mode laborMode).trialRiskAmount.isSome = true ∧
      (calculate input mode laborMode).trialProfit.isSome = true ∧
      (calculate input mode laborMode).trialGPPercent.isSome = true) ↔
      (jgt (safeNumber input.trialPricePerPage) (.fin 0) = true ∧
        jgt (safeNumber input.pages) (.fin 0) = true ∧
        jgt (calculate input mode laborMode).baseCost (.fin 0) = true)) ∧
    (((calculate input mode laborMode).trialRevenue.isSome = true ∧
      (calculate input mode laborMode).trialRiskAmount.isSome = true ∧
      (calculate input mode laborMode).trialProfit.isSome = true ∧
      (calculate input mode laborMode).trialGPPercent.isSome = true) ∨
      ((calculate input mode laborMode).trialRevenue = none ∧
      (calculate input mode laborMode).trialRiskAmount = none ∧
      (calculate input mode laborMode).trialProfit = none ∧
      (calculate input mode laborMode).trialGPPercent = none)) := by
  have hcond : trialGate input mode laborMode ↔
      (jgt (safeNumber input.trialPricePerPage) (.fin 0) = true ∧
        jgt (safeNumber input.pages) (.fin 0) = true ∧
        jgt (calculate input mode laborMode).baseCost (.fin 0) = true) := Iff.rfl
  by_cases hg : trialGate input mode laborMode
  · have hne : trialRevenueOf input ≠ .fin 0 := trialRevenueOf_ne_zero input hg.1 hg.2.1
    have hall : (calculate input mode laborMode).trialRevenue.isSome = true ∧
        (calculate input mode laborMode).trialRiskAmount.isSome = true ∧
        (calculate input mode laborMode).trialProfit.isSome = true ∧
        (calculate input mode laborMode).trialGPPercent.isSome = true := by
      refine ⟨?_, ?_, ?_, ?_⟩
      · show (if trialGate input mode laborMode then
            some (trialRevenueOf input) else none).isSome = true
        rw [if_pos hg]; rfl
      · show (if trialGate input mode laborMode then
            some (trialRiskAmountOf input) else none).isSome = true
        rw [if_pos hg]; rfl
      · show (if trialGate input mode laborMode then
            some (trialProfitOf input mode laborMode) else none).isSome = true
        rw [if_pos hg]; rfl
      · show (if trialGate input mode laborMode ∧ trialRevenueOf input ≠ .fin 0 then
            some (jdiv (trialProfitOf input mode laborMode) (trialRevenueOf input))
          else none).isSome = true
        rw [if_pos ⟨hg, hne⟩]; rfl
    exact ⟨iff_of_true hall (hcond.mp hg), Or.inl hall⟩
  · have hnone : (calculate input mode laborMode).trialRevenue = none ∧
        (calculate input mode laborMode).trialRiskAmount = none ∧
        (calculate input mode laborMode).trialProfit = none ∧
        (calculate input mode laborMode).trialGPPercent = none := by
      refine ⟨?_, ?_, ?_, ?_⟩
      · show (if trialGate input mode laborMode then
            some (trialRevenueOf input) else none) = none
        rw [if_neg hg]
      · show (if trialGate input mode laborMode then
            some (trialRiskAmountOf input) else none) = none
        rw [if_neg hg]
      · show (if trialGate input mode laborMode then
            some (trialProfitOf input mode laborMode) else none) = none
        rw [if_neg hg]
      · show (if trialGate input mode laborMode ∧ trialRevenueOf input ≠ .fin 0 then
            some (jdiv (trialProfitOf input mode laborMode) (trialRevenueOf input))
          else none) = none
        rw [if_neg fun hx => hg hx.1]
    refine ⟨iff_of_false ?_ fun hc => hg (hcond.mpr hc), Or.inr hnone⟩
    rintro ⟨h1, -⟩
    rw [hnone.1] at h1
    exact Bool.noConfusion h1

/-- C8: whenever the required-revenue branch is populated, `profitAfterRisk`
equals `targetGPAmount` exactly (exact rational arithmetic). -/
theorem profit_equals_target (input : InputState) (mode : Mode) (laborMode : LaborMode)
    (p t : JSVal)
    (hp : (calculate input mode laborMode).profitAfterRisk = some p)
    (ht : (calculate input mode laborMode).targetGPAmount = some t) :
    p = t := by
  have hgate : reqGate input mode laborMode := by
    by_contra hg
    rw [show (calculate input mode laborMode).profitAfterRisk =
        (if reqGate input mode laborMode then
          some (jsub (jsub (requiredRevenueOf input mode laborMode)
            (baseCostOf input mode laborMode))
            (jmul (requiredRevenueOf input mode laborMode)
              (safeNumber input.riskRate))) else none) from rfl, if_neg hg] at hp
    exact Option.noConfusion hp
  have hnil := errorsOf_nil_of_length input hgate.2.2
  have hcap : jgt (safeNumber input.capacityPerPersonPerDay) (.fin 0) = true :=
    ((errorsOf_eq_nil input).mp hnil).2.1
  obtain ⟨b, hb⟩ := baseCostOf_isFin input mode laborMode hcap
  obtain ⟨r, hr⟩ := safeNumber_isFin input.riskRate
  obtain ⟨g, hg2⟩ := safeNumber_isFin input.gpRate
  have hden : denomOf input = .fin (1 - r - g) := by
    unfold denomOf
    rw [hr, hg2, jsub_fin, jsub_fin]
  have hbpos : 0 < b := by
    have hx := hgate.1
    rw [hb, jgt_fin] at hx
    exact hx
  have hdpos : 0 < 1 - r - g := by
    have hx := hgate.2.1
    rw [hden, jgt_fin] at hx
    exact hx
  have hrrval : requiredRevenueOf input mode laborMode = .fin (b / (1 - r - g)) := by
    unfold requiredRevenueOf
    rw [hb, hden, jdiv_fin b hdpos.ne']
  have hpval : (calculate input mode laborMode).profitAfterRisk =
      some (.fin (b / (1 - r - g) - b - b / (1 - r - g) * r)) := by
    show (if reqGate input mode laborMode then
        some (jsub (jsub (requiredRevenueOf input mode laborMode)
          (baseCostOf input mode laborMode))
          (jmul (requiredRevenueOf input mode laborMode)
            (safeNumber input.riskRate))) else none) = _
    rw [if_pos hgate, hrrval, hb, hr, jmul_fin, jsub_fin, jsub_fin]
  have htval : (calculate input mode laborMode).targetGPAmount =
      some (.fin (b / (1 - r - g) * g)) := by
    show (if reqGate input mode laborMode then
        some (jmul (requiredRevenueOf input mode laborMode)
          (safeNumber input.gpRate)) else none) = _
    rw [if_pos hgate, hrrval, hg2, jmul_fin]
  rw [hpval] at hp
  rw [htval] at ht
  rw [(Option.some.inj hp).symm, (Option.some.inj ht).symm]
  have hq : b / (1 - r - g) - b - b / (1 - r - g) * r = b / (1 - r - g) * g := by
    field_simp
    ring
  rw [hq]

/-! ### Concrete inputs used by witnesses and counterexamples -/

/-- A fully valid input: 100 pages, capacity 10/day, 10 working days/month,
1 manual worker, rates 25% + 25%, trial price 1. -/
def sampleInput : InputState :=
  { pages := .fin 100, laborPerPage := .fin 1, monthlySalaryPerWorker := .fin 20,
    scannerMonthly := .fin 1, pcMonthly := .fin 1, workingDaysPerMonth := .fin 10,
    officePerJob := .fin 8, riskRate := .fin (1/4), gpRate := .fin (1/4),
    capacityPerPersonPerDay := .fin 10, workersManual := .fin 1,
    deadlineDays := .fin 0, trialPricePerPage := .fin 1 }

/-- The spec's gate-property example: riskRate 50% plus gpRate 60% exceed 100%. -/
def rateSumInput : InputState :=
  { sampleInput with riskRate := .fin (1/2), gpRate := .fin (3/5) }

/-- A non-integer manual headcount. -/
def fracWorkersInput : InputState :=
  { sampleInput with workersManual := .fin (5/2) }

/-- Deadline-driven with a zero capacity. -/
def capZeroInput : InputState :=
  { sampleInput with capacityPerPersonPerDay := .fin 0, deadlineDays := .fin 10 }

/-- A valid deadline-driven input: 30 pages, capacity 3/day, 10 days allowed. -/
def deadlineInput : InputState :=
  { sampleInput with
      pages := .fin 30
      capacityPerPersonPerDay := .fin 3
      deadlineDays := .fin 10 }

/-- A negative per-page wage, all other validation conditions satisfied. -/
def negLaborInput : InputState :=
  { sampleInput with laborPerPage := .fin (-1) }

/-- C7 counterexample: with `workersManual = 5/2` (FixedHeadcount) the workers
field is the non-integer 5/2; with capacity 0 in DeadlineDriven mode with
`deadlineDays = 10 > 0` the workers field is Infinity, not an integer >= 1. -/
theorem workers_integer_counterexample :
    (¬ ∃ n : ℤ, (calculate fracWorkersInput Mode.noDeadline LaborMode.perPage).workers =
      .fin (n : ℚ) ∧ 1 ≤ n) ∧
    (calculate capZeroInput Mode.withDeadline LaborMode.perPage).workers = JSVal.inf := by
  constructor
  · have hw : (calculate fracWorkersInput Mode.noDeadline LaborMode.perPage).workers =
        .fin (5/2) := by
      show workersOf fracWorkersInput Mode.noDeadline = _
      unfold workersOf
      rw [if_neg (by rintro ⟨h, -⟩; exact Mode.noConfusion h)]
      show jmax1 (safeNumber (.fin (5/2))) = _
      rw [safeNumber_fin, jmax1_fin, max_eq_right (by norm_num : (1:ℚ) ≤ 5/2)]
    rw [hw]
    rintro ⟨n, hn, h1⟩
    have hq : ((n : ℚ)) = 5/2 := (JSVal.fin.inj hn).symm
    have h2 : ((2 * n : ℤ) : ℚ) = ((5 : ℤ) : ℚ) := by push_cast; linarith
    have h3 : (2 * n : ℤ) = 5 := Int.cast_injective h2
    omega
  · show workersOf capZeroInput Mode.withDeadline = JSVal.inf
    norm_num [workersOf, capZeroInput, sampleInput, safeNumber, jsIsNaN, jsIsFinite,
      jmul, jdiv, jceil, jmax1, jgt]

/-- C7 amended: in DeadlineDriven mode with `deadlineDays > 0` and a nonzero
capacity, the workers field is an integer that is at least 1; in the fallback
(FixedHeadcount, or DeadlineDriven with `deadlineDays <= 0`) it is the finite
value `max(1, workersManual)`, at least 1 but an integer only when
`workersManual` is one. -/
theorem workers_integer_amended (input : InputState) (mode : Mode) (laborMode : LaborMode) :
    ((mode = Mode.withDeadline ∧ jgt (safeNumber input.deadlineDays) (.fin 0) = true ∧
        safeNumber input.capacityPerPersonPerDay ≠ .fin 0) →
      ∃ n : ℤ, (calculate input mode laborMode).workers = .fin (n : ℚ) ∧ 1 ≤ n) ∧
    (¬(mode = Mode.withDeadline ∧ jgt (safeNumber input.deadlineDays) (.fin 0) = true) →
      ∃ q : ℚ, (calculate input mode laborMode).workers = .fin q ∧ 1 ≤ q) := by
  constructor
  · rintro ⟨hm, hdd, hcap⟩
    obtain ⟨c, hc⟩ := safeNumber_isFin input.capacityPerPersonPerDay
    obtain ⟨d, hd⟩ := safeNumber_isFin input.deadlineDays
    obtain ⟨p, hp⟩ := safeNumber_isFin input.pages
    rw [hd, jgt_fin] at hdd
    rw [hc] at hcap
    have hcne : c ≠ 0 := fun h0 => hcap (by rw [h0])
    have hwval : (calculate input mode laborMode).workers =
        .fin (max 1 ((⌈p / (c * d)⌉ : ℤ) : ℚ)) := by
      show workersOf input mode = _
      unfold workersOf
      rw [if_pos ⟨hm, by rw [hd, jgt_fin]; exact hdd⟩, hp, hc, hd, jmul_fin,
        jdiv_fin p (mul_ne_zero hcne hdd.ne'), jceil_fin, jmax1_fin]
    refine ⟨max 1 ⌈p / (c * d)⌉, ?_, le_max_left _ _⟩
    rw [hwval]
    congr 1
    rw [Int.cast_max, Int.cast_one]
  · intro h
    obtain ⟨wm, hwm⟩ := safeNumber_isFin input.workersManual
    have hwval : (calculate input mode laborMode).workers = .fin (max 1 wm) := by
      show workersOf input mode = _
      unfold workersOf
      rw [if_neg h, hwm, jmax1_fin]
    exact ⟨max 1 wm, hwval, le_max_left _ _⟩

/-- C10: sanitization replaces only NaN and the infinities with 0 and leaves
negative finite values unchanged, and no validation rule checks the sign of
monetary fields: with `laborPerPage = -1` in per-page mode (pages 100,
capacity 10, workingDays 10, risk 25% + gp 25%), the result is valid with an
empty errors list and a negative labor cost. -/
theorem sanitization_and_negative_labor :
    (∀ q : ℚ, safeNumber (.fin q) = .fin q) ∧
    safeNumber .nan = .fin 0 ∧
    safeNumber .inf = .fin 0 ∧
    safeNumber .ninf = .fin 0 ∧
    (calculate negLaborInput Mode.noDeadline LaborMode.perPage).valid = true ∧
    (calculate negLaborInput Mode.noDeadline LaborMode.perPage).errors = [] ∧
    (calculate negLaborInput Mode.noDeadline LaborMode.perPage).laborCost = .fin (-100) ∧
    ((-100 : ℚ) < 0) := by
  refine ⟨fun q => rfl, rfl, rfl, rfl, ?_, ?_, ?_, by norm_num⟩
  · show decide ((errorsOf negLaborInput).length = 0) = true
    norm_num [errorsOf, denomOf, negLaborInput, sampleInput, safeNumber, jsIsNaN,
      jsIsFinite, jsub, jneg, jadd, jle]
  · show errorsOf negLaborInput = []
    norm_num [errorsOf, denomOf, negLaborInput, sampleInput, safeNumber, jsIsNaN,
      jsIsFinite, jsub, jneg, jadd, jle]
  · show laborCostOf negLaborInput Mode.noDeadline LaborMode.perPage = _
    norm_num [laborCostOf, negLaborInput, sampleInput, safeNumber, jsIsNaN,
      jsIsFinite, jmul]

/-! ### Witnesses: the claim theorems applied at concrete inputs -/

theorem required_branch_formulas_witness :
    (calculate sampleInput Mode.noDeadline LaborMode.perPage).riskAmount =
      some (jmul (.fin 220) (safeNumber sampleInput.riskRate)) := by
  have h : (calculate sampleInput Mode.noDeadline LaborMode.perPage).requiredRevenue =
      some (.fin 220) := by
    norm_num [calculate, reqGate, requiredRevenueOf, baseCostOf, rentalTotalOf, laborCostOf,
      monthlyRentalPerWorkerOf, monthsNeededOf, daysNeededOf, workersOf, errorsOf, denomOf,
      safeNumber, jsIsNaN, jsIsFinite, jadd, jsub, jneg, jmul, jdiv, jceil, jmax1, jgt, jle,
      sampleInput]
  exact (required_branch_formulas sampleInput Mode.noDeadline LaborMode.perPage
    (.fin 220) h).2.1

theorem required_branch_gate_witness :
    (calculate rateSumInput Mode.noDeadline LaborMode.perPage).requiredRevenue = none ∧
    (calculate rateSumInput Mode.noDeadline LaborMode.perPage).requiredPricePerPage = none ∧
    (calculate rateSumInput Mode.noDeadline LaborMode.perPage).riskAmount = none ∧
    (calculate rateSumInput Mode.noDeadline LaborMode.perPage).targetGPAmount = none ∧
    (calculate rateSumInput Mode.noDeadline LaborMode.perPage).profitAfterRisk = none := by
  have herr : (calculate rateSumInput Mode.noDeadline LaborMode.perPage).errors =
      [rateSumMsg] := by
    show errorsOf rateSumInput = _
    norm_num [errorsOf, denomOf, rateSumInput, sampleInput, safeNumber, jsIsNaN,
      jsIsFinite, jsub, jneg, jadd, jle]
  exact (required_branch_gate rateSumInput Mode.noDeadline LaborMode.perPage).2.1
    (fun hx => by
      rw [herr] at hx
      exact List.cons_ne_nil _ _ hx.2.2)

theorem workers_staffing_rule_witness :
    (calculate deadlineInput Mode.withDeadline LaborMode.perPage).workers =
      jmax1 (jceil (jdiv (safeNumber deadlineInput.pages)
        (jmul (safeNumber deadlineInput.capacityPerPersonPerDay)
          (safeNumber deadlineInput.deadlineDays)))) :=
  (workers_staffing_rule deadlineInput Mode.withDeadline LaborMode.perPage).1
    ⟨rfl, by show jgt (JSVal.fin 10) (JSVal.fin 0) = true; rw [jgt_fin]; norm_num⟩

theorem trial_branch_gate_witness :
    (calculate sampleInput Mode.noDeadline LaborMode.perPage).trialRevenue.isSome = true ∧
    (calculate sampleInput Mode.noDeadline LaborMode.perPage).trialRiskAmount.isSome = true ∧
    (calculate sampleInput Mode.noDeadline LaborMode.perPage).trialProfit.isSome = true ∧
    (calculate sampleInput Mode.noDeadline LaborMode.perPage).trialGPPercent.isSome = true := by
  apply (trial_branch_gate sampleInput Mode.noDeadline LaborMode.perPage).1.mpr
  refine ⟨?_, ?_, ?_⟩
  · show jgt (JSVal.fin 1) (JSVal.fin 0) = true
    rw [jgt_fin]; norm_num
  · show jgt (JSVal.fin 100) (JSVal.fin 0) = true
    rw [jgt_fin]; norm_num
  · show jgt (baseCostOf sampleInput Mode.noDeadline LaborMode.perPage) (JSVal.fin 0) = true
    norm_num [baseCostOf, rentalTotalOf, laborCostOf, monthlyRentalPerWorkerOf,
      monthsNeededOf, daysNeededOf, workersOf, sampleInput, safeNumber, jsIsNaN,
      jsIsFinite, jadd, jsub, jneg, jmul, jdiv, jceil, jmax1, jgt, jle]

theorem duration_derivation_witness :
    (calculate sampleInput Mode.noDeadline LaborMode.perPage).daysNeeded =
      jdiv (safeNumber sampleInput.pages)
        (jmul (safeNumber sampleInput.capacityPerPersonPerDay)
          (calculate sampleInput Mode.noDeadline LaborMode.perPage).workers) := by
  apply (duration_derivation sampleInput Mode.noDeadline LaborMode.perPage).1
  constructor
  · show jgt (JSVal.fin 10) (JSVal.fin 0) = true
    rw [jgt_fin]; norm_num
  · show jgt (workersOf sampleInput Mode.noDeadline) (JSVal.fin 0) = true
    norm_num [workersOf, sampleInput, safeNumber, jsIsNaN, jsIsFinite, jmax1, jgt,
      jmul, jdiv, jceil]

theorem workers_integer_amended_witness :
    ∃ n : ℤ, (calculate deadlineInput Mode.withDeadline LaborMode.perPage).workers =
      .fin (n : ℚ) ∧ 1 ≤ n := by
  apply (workers_integer_amended deadlineInput Mode.withDeadline LaborMode.perPage).1
  refine ⟨rfl, ?_, ?_⟩
  · show jgt (JSVal.fin 10) (JSVal.fin 0) = true
    rw [jgt_fin]; norm_num
  · show (JSVal.fin 3) ≠ (JSVal.fin 0)
    intro h
    have h3 := JSVal.fin.inj h
    norm_num at h3

theorem profit_equals_target_witness :
    (calculate sampleInput Mode.noDeadline LaborMode.perPage).profitAfterRisk =
      some (.fin 55) ∧
    (calculate sampleInput Mode.noDeadline LaborMode.perPage).targetGPAmount =
      some (.fin 55) ∧
    (JSVal.fin 55) = (JSVal.fin 55) := by
  have hp : (calculate sampleInput Mode.noDeadline LaborMode.perPage).profitAfterRisk =
      some (.fin 55) := by
    norm_num [calculate, reqGate, requiredRevenueOf, baseCostOf, rentalTotalOf, laborCostOf,
      monthlyRentalPerWorkerOf, monthsNeededOf, daysNeededOf, workersOf, errorsOf, denomOf,
      safeNumber, jsIsNaN, jsIsFinite, jadd, jsub, jneg, jmul, jdiv, jceil, jmax1, jgt, jle,
      sampleInput]
  have ht : (calculate sampleInput Mode.noDeadline LaborMode.perPage).targetGPAmount =
      some (.fin 55) := by
    norm_num [calculate, reqGate, requiredRevenueOf, baseCostOf, rentalTotalOf, laborCostOf,
      monthlyRentalPerWorkerOf, monthsNeededOf, daysNeededOf, workersOf, errorsOf, denomOf,
      safeNumber, jsIsNaN, jsIsFinite, jadd, jsub, jneg, jmul, jdiv, jceil, jmax1, jgt, jle,
      sampleInput]
  exact ⟨hp, ht,
    profit_equals_target sampleInput Mode.noDeadline LaborMode.perPage _ _ hp ht⟩

theorem trial_ignores_gpRate_witness :
    (calculate { sampleInput with gpRate := .fin (1/4) }
        Mode.noDeadline LaborMode.perPage).trialProfit =
      (calculate { sampleInput with gpRate := .fin (3/5) }
        Mode.noDeadline LaborMode.perPage).trialProfit :=
  (trial_ignores_gpRate sampleInput (.fin (1/4)) (.fin (3/5))
    Mode.noDeadline LaborMode.perPage).2.2.1

end ScanCost
